import Mathlib

/-!
Verification of the core of the ds3 C SDK (`src/ds3.c`): the canonical
request signer, the incremental HTTP header/status-line handler, the request
factories, the request executor's URL/header assembly, and the XML codec for
service listings, bucket listings and bulk job manifests.

The C code is shallowly embedded: C strings become Lean `String`
(`Option String` where `NULL` is a distinct observable value), GLib hash
tables become insertion-ordered association lists, `uint64_t` arithmetic is
`Nat` with explicit `% 2^64` where wrap-around matters, and calls whose C
behaviour is undefined (`strlen(NULL)`, `g_strdup(NULL)` followed by
`strlen`) make the embedding return `none`.  External collaborators (libcurl,
libxml's text parser, the wall clock) are inputs: a `Transport` value stands
for one libcurl exchange, and the XML text parser is a `String → Option Xml`
argument standing for `xmlParseMemory` (returning the root element, `none`
when the body is not well-formed XML).
-/

namespace Ds3

/-! ## GLib-style string helpers -/

/-- Characters accepted by `g_ascii_isspace` / C `isspace`. -/
def isGSpace (c : Char) : Bool :=
  c = ' ' || c = '\t' || c = '\n' || c = '\x0d' || c = '\x0b' || c = '\x0c'

/-- ASCII decimal digit test, as C `g_ascii_isdigit` / `isdigit`. -/
def charIsDigit (c : Char) : Bool :=
  48 ≤ c.toNat && c.toNat ≤ 57

/-- Number of bytes of the UTF-8 encoding of `s`; for the byte buffers the C
code receives this is the buffer length (`size * nmemb`). -/
def strByteSize (s : String) : Nat :=
  s.data.foldl (fun n c => n + c.utf8Size) 0

/-- Embeds `g_strchomp`: remove trailing whitespace in place. -/
def strchomp (s : String) : String :=
  String.mk ((s.data.reverse.dropWhile isGSpace).reverse)

/-- Does `s` start with the byte sequence `d`?  This is `g_str_has_prefix`,
and also the shape of a successful `strncmp(s, d, d.length) == 0`. -/
def listStartsWith : List Char → List Char → Bool
  | _, [] => true
  | [], _ :: _ => false
  | a :: as, b :: bs => a = b && listStartsWith as bs

/-- Embeds `g_str_has_prefix` on strings. -/
def gStrHasPrefix (s pre : String) : Bool :=
  listStartsWith s.data pre.data

/-- Splitter core for `g_strsplit`: `remaining` is the token budget
(`max_tokens`), `fuel` bounds recursion (one unit per consumed character, so
`s.length + 1` always suffices), `cur` is the reversed current token. -/
def gStrsplitAux (d : List Char) : Nat → Nat → List Char → List Char → List (List Char)
  | _, 0, s, cur => [cur.reverse ++ s]
  | remaining, fuel + 1, s, cur =>
    match s with
    | [] => [cur.reverse]
    | c :: rest =>
      if remaining ≤ 1 then [cur.reverse ++ s]
      else if listStartsWith s d then
        cur.reverse :: gStrsplitAux d (remaining - 1) fuel (s.drop d.length) []
      else
        gStrsplitAux d remaining fuel rest (c :: cur)

/-- Embeds `g_strsplit(s, d, max_tokens)`: splits `s` at every occurrence of `d`
(empty tokens preserved), at most `max_tokens` tokens with the last token
holding the remainder; the empty string yields an empty vector. -/
def gStrsplit (s d : String) (maxTokens : Nat) : List String :=
  if s.data.isEmpty then []
  else (gStrsplitAux d.data maxTokens (s.data.length + 1) s.data []).map String.mk

/-- Embeds `g_strjoinv(sep, v)`: join the strings with the separator. -/
def strjoinv (sep : String) : List String → String
  | [] => ""
  | [x] => x
  | x :: xs => x ++ sep ++ strjoinv sep (xs)

/-- Value of a big-endian list of ASCII decimal digit characters. -/
def digitsVal (cs : List Char) : Nat :=
  cs.foldl (fun a c => a * 10 + (c.toNat - 48)) 0

/-- Core of C `strtoul(s, NULL, 10)`: skip leading whitespace, one optional
sign, then decimal digits; a negative value wraps modulo 2^64 and a magnitude
that does not fit in an `unsigned long` yields `ULONG_MAX`. -/
def strtoulBody (afterWs : List Char) : List Char :=
  if afterWs.head? = some '-' || afterWs.head? = some '+' then afterWs.tail
  else afterWs

def strtoulClamp (neg : Bool) (v : Nat) : Nat :=
  if 18446744073709551616 ≤ v then 18446744073709551615
  else if neg then (18446744073709551616 - v) % 18446744073709551616
  else v

def strtoul10Chars (cs : List Char) : Nat :=
  strtoulClamp ((cs.dropWhile isGSpace).head? = some '-')
    (digitsVal ((strtoulBody (cs.dropWhile isGSpace)).takeWhile charIsDigit))

/-- C `strtoul(s, NULL, 10)` on a string. -/
def strtoul10 (s : String) : Nat :=
  strtoul10Chars s.data

/-- Embeds `g_ascii_strtoll(s, &end, 10)`: like `strtoll`, clamping to the `gint64`
range. -/
def gAsciiStrtoll (s : String) : Int :=
  let afterWs := s.data.dropWhile isGSpace
  let neg : Bool := afterWs.head? = some '-'
  let body :=
    if afterWs.head? = some '-' || afterWs.head? = some '+' then afterWs.tail
    else afterWs
  let v := digitsVal (body.takeWhile charIsDigit)
  let signed : Int := if neg then -(v : Int) else (v : Int)
  if 9223372036854775807 < signed then 9223372036854775807
  else if signed < -9223372036854775808 then -9223372036854775808
  else signed

/-- Conversion of a `gint64` value to the `uint64_t` field it is stored in. -/
def intToUint64 (i : Int) : Nat :=
  (i % 18446744073709551616).toNat

/-- The ASCII character of a decimal digit (C `'0' + d`). -/
def digitChar : Nat → Char
  | 0 => '0' | 1 => '1' | 2 => '2' | 3 => '3' | 4 => '4'
  | 5 => '5' | 6 => '6' | 7 => '7' | 8 => '8' | _ => '9'

/-- Big-endian decimal digits of `n` (empty for 0); `fuel ≥ n` suffices. -/
def natDigitsAux : Nat → Nat → List Char
  | 0, _ => []
  | fuel + 1, n =>
    if n = 0 then []
    else natDigitsAux fuel (n / 10) ++ [digitChar (n % 10)]

/-- Decimal rendering of a natural number. -/
def natDecimalChars (n : Nat) : List Char :=
  if n = 0 then ['0'] else natDigitsAux n n

/-- Embeds `g_snprintf(buf, 21, "%ld", size)` applied to a `uint64_t` on an LP64
platform: the value is printed through its two's-complement `long`
interpretation.  The longest rendering is 20 characters, so the 21-byte
buffer never truncates. -/
def sprintfLd (n : Nat) : String :=
  String.mk (if n < 9223372036854775808 then natDecimalChars n
             else '-' :: natDecimalChars (18446744073709551616 - n))

/-- Insert into a `GHashTable` keyed by strings: an existing key's value is
replaced (last write wins), a new key is appended. -/
def hashInsert (m : List (String × String)) (k v : String) : List (String × String) :=
  match m with
  | [] => [(k, v)]
  | (k0, v0) :: rest =>
    if k0 = k then (k0, v) :: rest else (k0, v0) :: hashInsert rest k v

/-- UTF-8 bytes of a string (the byte sequence the C code hands to GLib; the
embedded strings stand for NUL-free C strings, so `strlen`-delimited reads
see exactly these bytes). -/
def strBytes (s : String) : List Nat :=
  s.data.foldr (fun c acc => (String.singleton c).toUTF8.toList.map UInt8.toNat ++ acc) []

/-! ## SHA-1, HMAC-SHA1 and Base64 (GLib `g_hmac_*` / `g_base64_encode`) -/

/-- Truncation to a 32-bit word. -/
def w32 (n : Nat) : Nat := n % 4294967296

/-- Left rotation of a 32-bit word by `s < 32` bits. -/
def rotl32 (n s : Nat) : Nat :=
  (n * 2 ^ s) % 4294967296 + n % 4294967296 / 2 ^ (32 - s)

/-- SHA-1 padding: append `0x80`, zero bytes to 56 mod 64, then the bit
length as 8 big-endian bytes. -/
def sha1pad (msg : List Nat) : List Nat :=
  let len := msg.length
  let zeros := (119 - len % 64) % 64
  let bitlen := len * 8
  msg ++ [128] ++ List.replicate zeros 0 ++
    [bitlen / 2 ^ 56 % 256, bitlen / 2 ^ 48 % 256, bitlen / 2 ^ 40 % 256,
     bitlen / 2 ^ 32 % 256, bitlen / 2 ^ 24 % 256, bitlen / 2 ^ 16 % 256,
     bitlen / 2 ^ 8 % 256, bitlen % 256]

/-- Split a byte list into chunks of `n` bytes (`fuel` bounds recursion). -/
def chunksAux (n : Nat) : Nat → List Nat → List (List Nat)
  | 0, _ => []
  | _, [] => []
  | fuel + 1, bs => bs.take n :: chunksAux n fuel (bs.drop n)

/-- The sixteen big-endian 32-bit words of a 64-byte chunk. -/
def sha1words (chunk : List Nat) : Array Nat :=
  (chunksAux 4 17 chunk).foldl
    (fun a ws =>
      a.push (ws.foldl (fun acc b => acc * 256 + b) 0)) (Array.mkEmpty 16)

/-- Extend the sixteen words of a chunk to the eighty-word schedule. -/
def sha1schedule (ws : Array Nat) : Array Nat :=
  (List.range 64).foldl
    (fun a i =>
      a.push (rotl32 ((a.getD (i + 13) 0) ^^^ (a.getD (i + 8) 0) ^^^
                      (a.getD (i + 2) 0) ^^^ (a.getD i 0)) 1))
    ws

/-- One SHA-1 compression round over the running state. -/
def sha1round (w : Array Nat) (st : Nat × Nat × Nat × Nat × Nat) (i : Nat) :
    Nat × Nat × Nat × Nat × Nat :=
  let (a, b, c, d, e) := st
  let fk : Nat × Nat :=
    if i < 20 then ((b &&& c) ||| ((4294967295 - b) &&& d), 1518500249)
    else if i < 40 then (b ^^^ c ^^^ d, 1859775393)
    else if i < 60 then ((b &&& c) ||| (b &&& d) ||| (c &&& d), 2400959708)
    else (b ^^^ c ^^^ d, 3395469782)
  let temp := w32 (rotl32 a 5 + fk.1 + e + fk.2 + w.getD i 0)
  (temp, a, rotl32 b 30, c, d)

/-- SHA-1 compression of one 64-byte chunk into the hash state. -/
def sha1compress (h : Nat × Nat × Nat × Nat × Nat) (chunk : List Nat) :
    Nat × Nat × Nat × Nat × Nat :=
  let w := sha1schedule (sha1words chunk)
  let (a, b, c, d, e) := (List.range 80).foldl (sha1round w) h
  (w32 (h.1 + a), w32 (h.2.1 + b), w32 (h.2.2.1 + c), w32 (h.2.2.2.1 + d),
   w32 (h.2.2.2.2 + e))

/-- Big-endian bytes of a 32-bit word. -/
def word32Bytes (n : Nat) : List Nat :=
  [n / 2 ^ 24 % 256, n / 2 ^ 16 % 256, n / 2 ^ 8 % 256, n % 256]

/-- SHA-1 digest (20 bytes) of a byte sequence. -/
def sha1 (msg : List Nat) : List Nat :=
  let padded := sha1pad msg
  let st := (chunksAux 64 (padded.length + 1) padded).foldl sha1compress
    (1732584193, 4023233417, 2562383102, 271733878, 3285377520)
  word32Bytes st.1 ++ word32Bytes st.2.1 ++ word32Bytes st.2.2.1 ++
    word32Bytes st.2.2.2.1 ++ word32Bytes st.2.2.2.2

/-- HMAC-SHA1 (`g_hmac_new(G_CHECKSUM_SHA1, key)` then update/digest): the
20-byte digest. -/
def hmacSha1 (key msg : List Nat) : List Nat :=
  let k0 := if 64 < key.length then sha1 key else key
  let k := k0 ++ List.replicate (64 - k0.length) 0
  sha1 (k.map (fun b => b ^^^ 92) ++ sha1 (k.map (fun b => b ^^^ 54) ++ msg))

/-- The Base64 alphabet, indexed 0–63. -/
def base64Char (n : Nat) : Char :=
  "ABCDEFGHIJKLMNOPQRSTUVWXYZabcdefghijklmnopqrstuvwxyz0123456789+/".data.getD n '?'

/-- Embeds `g_base64_encode`: standard Base64 with `=` padding and no line breaks. -/
def base64Encode : List Nat → String
  | [] => ""
  | [a] =>
    String.mk [base64Char (a / 4), base64Char (a % 4 * 16), '=', '=']
  | [a, b] =>
    String.mk [base64Char (a / 4), base64Char (a % 4 * 16 + b / 16),
               base64Char (b % 16 * 4), '=']
  | a :: b :: c :: rest =>
    String.mk [base64Char (a / 4), base64Char (a % 4 * 16 + b / 16),
               base64Char (b % 16 * 4 + c / 64), base64Char (c % 64)] ++
      base64Encode rest

/-! ## Data model (`ds3.h` structs as used by `ds3.c`) -/

/-- HTTP verbs of the `http_verb` enum. -/
inductive HttpVerb where
  | get | put | post | delete | head
deriving DecidableEq

/-- Credentials: access id and secret key (the `_len` fields are `strlen` of
these and carry no extra information). -/
structure Ds3Creds where
  access_id : String
  secret_key : String
deriving DecidableEq

/-- A client session: endpoint, credentials, optional proxy, redirect limit. -/
structure Ds3Client where
  endpoint : String
  creds : Ds3Creds
  proxy : Option String := none
  num_redirects : Nat := 5
deriving DecidableEq

/-- One object of a bulk request: key name (a C string, `none` = `NULL`) and
size in bytes (`uint64_t`). -/
structure Ds3BulkObject where
  name : Option String := none
  size : Nat := 0
deriving DecidableEq

/-- An ordered list of bulk objects with optional server-assigned chunk
metadata. -/
structure Ds3BulkObjectList where
  list : List Ds3BulkObject := []
  server_id : Option String := none
  chunk_number : Nat := 0
deriving DecidableEq

/-- The opaque `struct _ds3_request`. -/
structure Ds3Request where
  verb : HttpVerb
  path : String
  length : Nat := 0
  headers : List (String × String) := []
  query_params : List (String × String) := []
  object_list : Option Ds3BulkObjectList := none
deriving DecidableEq

/-- The `ds3_error_code` enum. -/
inductive Ds3ErrorCode where
  | MISSING_ARGS | CURL_HANDLE | FAILED_REQUEST | INVALID_XML
deriving DecidableEq

/-- A `ds3_error`: code plus diagnostic message (`message_size` is its
`strlen`). -/
structure Ds3Error where
  code : Ds3ErrorCode
  message : String
deriving DecidableEq

/-- Embeds `_ds3_create_error`. -/
def ds3_create_error (code : Ds3ErrorCode) (message : String) : Ds3Error :=
  { code := code, message := message }

/-! ## Canonical signer (`_generate_signature_str`, `_net_compute_signature`) -/

/-- Embeds `_net_get_verb`. -/
def net_get_verb : HttpVerb → String
  | .get => "GET"
  | .put => "PUT"
  | .post => "POST"
  | .delete => "DELETE"
  | .head => "HEAD"

/-- Embeds `_generate_signature_str(verb, resource_name, date, content_type, md5,
amz_headers)`: the canonical string handed to the HMAC.  (The C function
reports `NULL` resource or date as a programming error; the embedding's
inputs stand for non-`NULL` strings.) -/
def generate_signature_str (verb : HttpVerb)
    (resource_name date content_type md5 amz_headers : String) : String :=
  net_get_verb verb ++ "\n" ++ md5 ++ "\n" ++ content_type ++ "\n" ++ date ++
    "\n" ++ amz_headers ++ resource_name

/-- Embeds `_net_compute_signature`: HMAC-SHA1 of the canonical string keyed by the
secret key, Base64-encoded. -/
def net_compute_signature (creds : Ds3Creds) (verb : HttpVerb)
    (resource_name date content_type md5 amz_headers : String) : String :=
  base64Encode (hmacSha1 (strBytes creds.secret_key)
    (strBytes (generate_signature_str verb resource_name date content_type md5
      amz_headers)))

/-! ## Request executor (`_net_gen_query_params`, `_net_process_request`) -/

/-- The `query_entries` accumulator of `_net_gen_query_params`. -/
structure QueryEntries where
  entries : List (Option String)
  size : Nat

/-- Write `v` at position `i` of a C array modelled as a list. -/
def setNth : List (Option String) → Nat → String → List (Option String)
  | [], _, _ => []
  | _ :: rest, 0, v => some v :: rest
  | x :: rest, n + 1, v => x :: setNth rest n v

/-- Embeds `_hash_for_each`: writes `key=value` into `entries->entries[entries->size]`.
The C callback never increments `entries->size`, so every entry is written to
slot 0; the embedding reproduces that faithfully. -/
def hash_for_each (e : QueryEntries) (kv : String × String) : QueryEntries :=
  { e with entries := setNth e.entries e.size (kv.1 ++ "=" ++ kv.2) }

/-- Embeds `g_strjoinv` over a `NULL`-terminated C string array: joins the entries
before the first `NULL`. -/
def takeWhileSome : List (Option String) → List String
  | some s :: rest => s :: takeWhileSome rest
  | _ => []

/-- Embeds `_net_gen_query_params`: `NULL` for an empty map, otherwise the entries
array (allocated with one slot per parameter plus the terminator, filled by
`_hash_for_each`) joined with `&`. -/
def net_gen_query_params (query_params : List (String × String)) : Option String :=
  if 0 < query_params.length then
    let q := query_params.foldl hash_for_each
      { entries := List.replicate (query_params.length + 1) none, size := 0 }
    some (strjoinv "&" (takeWhileSome q.entries))
  else
    none

/-- One libcurl exchange as seen by `_net_process_request`: whether
`curl_easy_init` succeeded, the wall-clock date string
`_generate_date_string` produced, the bytes the transport delivered to the
write callback during `curl_easy_perform`, and the diagnostic text when
`curl_easy_perform` failed (`none` = `CURLE_OK`). -/
structure Transport where
  handleOk : Bool := true
  now : String
  bodyDelivered : String := ""
  curlError : Option String := none

/-- What `_net_process_request` hands to libcurl for the exchange: the
assembled URL and the two headers in the `curl_slist`. -/
structure SentRequest where
  url : String
  authHeader : String
  dateHeader : String
deriving DecidableEq

/-- Embeds `_net_process_request`: assemble the URL and signed headers, perform the
exchange, and wrap failures.  The second component records what was handed to
libcurl (`none` when no handle was obtained). -/
def net_process_request (client : Ds3Client) (request : Ds3Request)
    (t : Transport) : Option Ds3Error × Option SentRequest :=
  if t.handleOk then
    let query_params := net_gen_query_params request.query_params
    let url :=
      match query_params with
      | none => client.endpoint ++ request.path
      | some qp => client.endpoint ++ request.path ++ "?" ++ qp
    let date := t.now
    let date_header := "Date: " ++ date
    let signature :=
      net_compute_signature client.creds request.verb request.path date "" "" ""
    let auth_header :=
      "Authorization: AWS " ++ client.creds.access_id ++ ":" ++ signature
    let sent : SentRequest :=
      { url := url, authHeader := auth_header, dateHeader := date_header }
    match t.curlError with
    | some diag =>
      (some (ds3_create_error .FAILED_REQUEST ("Request failed: " ++ diag)),
       some sent)
    | none => (none, some sent)
  else
    (some (ds3_create_error .CURL_HANDLE "Failed to create curl handle"), none)

/-- Embeds `_internal_request_dispatcher`: `MISSING_ARGS` when client or request is
`NULL`, otherwise `_net_process_request`. -/
def internal_request_dispatcher (client : Option Ds3Client)
    (request : Option Ds3Request) (t : Transport) :
    Option Ds3Error × Option SentRequest :=
  match client, request with
  | some c, some r => net_process_request c r t
  | _, _ =>
    (some (ds3_create_error .MISSING_ARGS
      "All arguments must be filled in for request processing"), none)

/-- The bytes accumulated in the `xml_blob` byte array by `load_xml_buff`:
empty unless the dispatcher actually performed an exchange. -/
def deliveredBody (client : Option Ds3Client) (request : Option Ds3Request)
    (t : Transport) : String :=
  match client, request with
  | some _, some _ => if t.handleOk then t.bodyDelivered else ""
  | _, _ => ""

/-! ## Header stream handler (`_process_header_line`) -/

/-- The `ds3_response_data` accumulator (the `_size` fields are `strlen`
bookkeeping and are omitted). -/
structure ResponseData where
  status_code : Nat := 0
  status_message : String := ""
  header_count : Nat := 0
  headers : List (String × String) := []
deriving DecidableEq

/-- The zero-initialised `ds3_response_data` (`memset(&response_data, 0, …)`). -/
def emptyResponseData : ResponseData := {}

/-- Embeds `_process_header_line(buffer, size, nmemb, response_data)` on one header
chunk.  Returns the updated state and the callback's return value
(`size * nmemb` on success, `0` to abort the transfer), or `none` where the C
has undefined behaviour: `g_ascii_strtoll(NULL, …)` when the status line has
no second token, and `g_strdup(NULL)`/`strlen(NULL)` when a header line has
no `": "` separator. -/
def process_header_line (response_data : ResponseData) (buffer : String) :
    Option (ResponseData × Nat) :=
  -- `strByteSize buffer` is `to_read = size * nmemb`; `strchomp buffer` is
  -- the chomped `header_buff`
  if strByteSize buffer < 2 then some (response_data, 0)
  else if (strchomp buffer).data.length = 0 then
    -- all headers read: the last line is only "\r\n"
    some (response_data, strByteSize buffer)
  else if response_data.header_count < 1 then
    if gStrHasPrefix (strchomp buffer) "HTTP/1.1" then
      match (gStrsplit (strchomp buffer) " " 1000).get? 1 with
      | none => none
      | some tok =>
        -- the end pointer g_ascii_strtoll returns is never NULL, so the
        -- error test reduces to the parsed value being 0
        if intToUint64 (gAsciiStrtoll tok) = 0 then some (response_data, 0)
        else if intToUint64 (gAsciiStrtoll tok) = 100 then
          -- returns before header_count++: the state is untouched
          some (response_data, strByteSize buffer)
        else
          some ({ response_data with
                    status_code := intToUint64 (gAsciiStrtoll tok),
                    status_message :=
                      strjoinv " " ((gStrsplit (strchomp buffer) " " 1000).drop 2),
                    header_count := response_data.header_count + 1 },
                strByteSize buffer)
    else
      -- "Unsupported Protocol"
      some (response_data, 0)
  else
    match (gStrsplit (strchomp buffer) ": " 2).get? 0,
          (gStrsplit (strchomp buffer) ": " 2).get? 1 with
    | some key, some value =>
      some ({ response_data with
                headers := hashInsert response_data.headers key value,
                header_count := response_data.header_count + 1 },
            strByteSize buffer)
    | _, _ => none

/-! ## Request factories (`ds3_init_*`) -/

/-- Embeds `_common_request_init`: zeroed request with fresh empty hash tables. -/
def common_request_init : Ds3Request :=
  { verb := .get, path := "" }

/-- Embeds `ds3_init_get_service`. -/
def ds3_init_get_service : Ds3Request :=
  { common_request_init with verb := .get, path := "/" }

/-- Embeds `ds3_init_get_bucket`. -/
def ds3_init_get_bucket (bucket_name : String) : Ds3Request :=
  { common_request_init with verb := .get, path := "/" ++ bucket_name }

/-- Embeds `ds3_init_get_object`. -/
def ds3_init_get_object (bucket_name object_name : String) : Ds3Request :=
  { common_request_init with
      verb := .get,
      path := "/" ++ bucket_name ++ "/" ++ object_name }

/-- Embeds `ds3_init_delete_object`. -/
def ds3_init_delete_object (bucket_name object_name : String) : Ds3Request :=
  { common_request_init with
      verb := .delete,
      path := "/" ++ bucket_name ++ "/" ++ object_name }

/-- Embeds `ds3_init_put_object`. -/
def ds3_init_put_object (bucket_name object_name : String) (length : Nat) :
    Ds3Request :=
  { common_request_init with
      verb := .put,
      path := "/" ++ bucket_name ++ "/" ++ object_name,
      length := length }

/-- Embeds `ds3_init_put_bucket`. -/
def ds3_init_put_bucket (bucket_name : String) : Ds3Request :=
  { common_request_init with verb := .put, path := "/" ++ bucket_name }

/-- Embeds `ds3_init_delete_bucket`. -/
def ds3_init_delete_bucket (bucket_name : String) : Ds3Request :=
  { common_request_init with verb := .delete, path := "/" ++ bucket_name }

/-- Embeds `ds3_init_get_bulk`. -/
def ds3_init_get_bulk (bucket_name : String)
    (object_list : Ds3BulkObjectList) : Ds3Request :=
  { common_request_init with
      verb := .put,
      path := "/_rest_/bucket/" ++ bucket_name,
      query_params := hashInsert [] "operation" "start_bulk_get",
      object_list := some object_list }

/-- Embeds `ds3_init_put_bulk`. -/
def ds3_init_put_bulk (bucket_name : String)
    (object_list : Ds3BulkObjectList) : Ds3Request :=
  { common_request_init with
      verb := .put,
      path := "/_rest_/bucket/" ++ bucket_name,
      query_params := hashInsert [] "operation" "start_bulk_put",
      object_list := some object_list }

end Ds3

namespace Ds3

/-! ## XML document model (the libxml tree the codec traverses) -/

/-- A node of a parsed libxml tree: an element with attributes and children,
or a text node.  An attribute's value is stored by libxml as a list of text
children; the empty value has an empty list, which is why reading it back
can yield `NULL` (see `attrText`). -/
inductive Xml where
  | elem (name : String) (attrs : List (String × String)) (children : List Xml)
  | text (s : String)

/-- The `name` field of a node; libxml names text nodes `"text"`. -/
def xmlName : Xml → String
  | .elem n _ _ => n
  | .text _ => "text"

/-- The `xmlChildrenNode` list of a node (text nodes have none). -/
def xmlChildren : Xml → List Xml
  | .elem _ _ ch => ch
  | .text _ => []

/-- The `properties` attribute list of a node. -/
def xmlAttrs : Xml → List (String × String)
  | .elem _ at2 _ => at2
  | .text _ => []

/-- Embeds `xmlNodeListGetString(doc, node->xmlChildrenNode, 1)`: the concatenated
text content of a child list, `NULL` when it holds no text. -/
def xmlNodeListGetString (children : List Xml) : Option String :=
  match children.filterMap (fun c => match c with | .text s => some s | _ => none) with
  | [] => none
  | ts => some (String.mk (ts.foldl (fun acc t => acc ++ t.data) []))

/-- Embeds `xmlNodeListGetString(doc, attribute->children, 1)` for an attribute
value: libxml stores the value as text children, none for the empty string,
so reading an empty value yields `NULL`. -/
def attrText (v : String) : Option String :=
  if v = "" then none else some v

/-! ## XML codec: service listing (`_parse_owner`, `_parse_buckets`,
`ds3_get_service`) -/

/-- The `ds3_owner` struct. -/
structure Ds3Owner where
  name : Option String := none
  id : Option String := none
deriving DecidableEq

/-- Embeds `_parse_owner`: fold over the owner node's children; `DisplayName` and
`ID` leaves are read with no `NULL` check (`strlen(NULL)` is undefined
behaviour, embedded as `none`); unknown elements are logged and skipped. -/
def parse_owner (nodes : List Xml) : Option Ds3Owner :=
  nodes.foldlM
    (fun (owner : Ds3Owner) child_node =>
      if xmlName child_node = "DisplayName" then
        match xmlNodeListGetString (xmlChildren child_node) with
        | some t => some { owner with name := some t }
        | none => none
      else if xmlName child_node = "ID" then
        match xmlNodeListGetString (xmlChildren child_node) with
        | some t => some { owner with id := some t }
        | none => none
      else
        some owner)
    {}

/-- The `ds3_bucket` struct. -/
structure Ds3Bucket where
  creation_date : Option String := none
  name : Option String := none
deriving DecidableEq

/-- Embeds `_parse_buckets`: one `ds3_bucket` is appended per child of the
`Buckets` node (whatever its name); `CreationDate` and `Name` leaves are read
with no `NULL` check; unknown elements are logged and skipped. -/
def parse_buckets (nodes : List Xml) : Option (List Ds3Bucket) :=
  nodes.foldlM
    (fun acc curr => do
      let bucket ← (xmlChildren curr).foldlM
        (fun (bucket : Ds3Bucket) data_ptr =>
          if xmlName data_ptr = "CreationDate" then
            match xmlNodeListGetString (xmlChildren data_ptr) with
            | some t => some { bucket with creation_date := some t }
            | none => none
          else if xmlName data_ptr = "Name" then
            match xmlNodeListGetString (xmlChildren data_ptr) with
            | some t => some { bucket with name := some t }
            | none => none
          else
            some bucket)
        {}
      some (acc ++ [bucket]))
    []

/-- The `ds3_get_service_response` struct. -/
structure Ds3GetServiceResponse where
  buckets : List Ds3Bucket := []
  owner : Option Ds3Owner := none
deriving DecidableEq

/-- The XML-decoding tail of `ds3_get_service` (everything after the
dispatcher call), applied to the accumulated body bytes and the root element
`xmlParseMemory`/`xmlDocGetRootElement` produced from them (`none` when the
body could not be parsed).  `some (.error e)` is a returned `ds3_error`,
`some (.ok r)` a populated response, `none` undefined behaviour inside the
traversal. -/
def ds3_get_service_decode (raw : String) (root : Option Xml) :
    Option (Except Ds3Error Ds3GetServiceResponse) :=
  match root with
  | none =>
    some (.error (ds3_create_error .INVALID_XML
      ("Failed to parse response document.  The actual response is: " ++ raw)))
  | some rootNode =>
    if xmlName rootNode ≠ "ListAllMyBucketsResult" then
      some (.error (ds3_create_error .INVALID_XML
        ("Expected the root element to be 'ListAllMyBucketsResult'.  The actual response is: "
          ++ raw)))
    else
      ((xmlChildren rootNode).foldlM
        (fun (response : Ds3GetServiceResponse) child_node =>
          if xmlName child_node = "Buckets" then do
            let bs ← parse_buckets (xmlChildren child_node)
            some { response with buckets := bs }
          else if xmlName child_node = "Owner" then do
            let ow ← parse_owner (xmlChildren child_node)
            some { response with owner := some ow }
          else
            some response)
        {}).map Except.ok

/-- Embeds `ds3_get_service`: dispatch the exchange — discarding the dispatcher's
error return, as the C does on line 632 — then decode whatever bytes are in
the blob. -/
def ds3_get_service (client : Option Ds3Client) (request : Option Ds3Request)
    (t : Transport) (parseXml : String → Option Xml) :
    Option (Except Ds3Error Ds3GetServiceResponse) :=
  let xml_blob := deliveredBody client request t
  let _ := internal_request_dispatcher client request t
  ds3_get_service_decode xml_blob (parseXml xml_blob)

end Ds3

namespace Ds3

/-! ## XML codec: bucket listing (`_parse_object`, `ds3_get_bucket`) -/

/-- The `ds3_object` struct. -/
structure Ds3Object where
  name : Option String := none
  etag : Option String := none
  last_modified : Option String := none
  storage_class : Option String := none
  size : Nat := 0
  owner : Option Ds3Owner := none
deriving DecidableEq

/-- Embeds `_parse_object` on one `Contents` node: `Key` and `Size` leaves are read
with no `NULL` check (undefined behaviour on empty content), the other
leaves skip `NULL` text; unknown elements are logged and skipped. -/
def parse_object (contents_node : Xml) : Option Ds3Object :=
  (xmlChildren contents_node).foldlM
    (fun (object : Ds3Object) child_node =>
      if xmlName child_node = "Key" then
        match xmlNodeListGetString (xmlChildren child_node) with
        | some t => some { object with name := some t }
        | none => none
      else if xmlName child_node = "ETag" then
        match xmlNodeListGetString (xmlChildren child_node) with
        | some t => some { object with etag := some t }
        | none => some object
      else if xmlName child_node = "LastModified" then
        match xmlNodeListGetString (xmlChildren child_node) with
        | some t => some { object with last_modified := some t }
        | none => some object
      else if xmlName child_node = "StorageClass" then
        match xmlNodeListGetString (xmlChildren child_node) with
        | some t => some { object with storage_class := some t }
        | none => some object
      else if xmlName child_node = "Size" then
        match xmlNodeListGetString (xmlChildren child_node) with
        | some t => some { object with size := strtoul10 t }
        | none => none
      else if xmlName child_node = "Owner" then do
        let ow ← parse_owner (xmlChildren child_node)
        some { object with owner := some ow }
      else
        some object)
    {}

/-- The `ds3_get_bucket_response` struct. -/
structure Ds3GetBucketResponse where
  objects : List Ds3Object := []
  creation_date : Option String := none
  is_truncated : Bool := false
  marker : Option String := none
  max_keys : Nat := 0
  name : Option String := none
  delimiter : Option String := none
  next_marker : Option String := none
  prefixVal : Option String := none
deriving DecidableEq

/-- One step of the `ds3_get_bucket` child loop: update the response and the
`Contents` accumulator from one child of the root. -/
def get_bucket_step (st : Ds3GetBucketResponse × List Ds3Object)
    (child_node : Xml) : Option (Ds3GetBucketResponse × List Ds3Object) :=
  let response := st.1
  if xmlName child_node = "Contents" then do
    let object ← parse_object child_node
    some (response, st.2 ++ [object])
  else if xmlName child_node = "CreationDate" then
    match xmlNodeListGetString (xmlChildren child_node) with
    | some t => some ({ response with creation_date := some t }, st.2)
    | none => some st
  else if xmlName child_node = "IsTruncated" then
    match xmlNodeListGetString (xmlChildren child_node) with
    | some t =>
      -- strncmp(text, "true", 4) == 0 tests the first four bytes only
      some ({ response with is_truncated := listStartsWith t.data "true".data },
            st.2)
    | none => some st
  else if xmlName child_node = "Marker" then
    match xmlNodeListGetString (xmlChildren child_node) with
    | some t => some ({ response with marker := some t }, st.2)
    | none => some st
  else if xmlName child_node = "MaxKeys" then
    match xmlNodeListGetString (xmlChildren child_node) with
    | some t => some ({ response with max_keys := strtoul10 t }, st.2)
    | none => some st
  else if xmlName child_node = "Name" then
    match xmlNodeListGetString (xmlChildren child_node) with
    | some t => some ({ response with name := some t }, st.2)
    | none => some st
  else if xmlName child_node = "Delimiter" then
    match xmlNodeListGetString (xmlChildren child_node) with
    | some t => some ({ response with delimiter := some t }, st.2)
    | none => some st
  else if xmlName child_node = "NextMarker" then
    match xmlNodeListGetString (xmlChildren child_node) with
    | some t => some ({ response with next_marker := some t }, st.2)
    | none => some st
  else if xmlName child_node = "Prefix" then
    match xmlNodeListGetString (xmlChildren child_node) with
    | some t => some ({ response with prefixVal := some t }, st.2)
    | none => some st
  else
    some st

/-- The XML-decoding tail of `ds3_get_bucket`.  (The root-mismatch message
really says `'ListBucketsResult'` in the C while the comparison is against
`ListBucketResult`; the message is kept verbatim.) -/
def ds3_get_bucket_decode (raw : String) (root : Option Xml) :
    Option (Except Ds3Error Ds3GetBucketResponse) :=
  match root with
  | none =>
    some (.error (ds3_create_error .INVALID_XML
      ("Failed to parse response document.  The actual response is: " ++ raw)))
  | some rootNode =>
    if xmlName rootNode ≠ "ListBucketResult" then
      some (.error (ds3_create_error .INVALID_XML
        ("Expected the root element to be 'ListBucketsResult'.  The actual response is: "
          ++ raw)))
    else
      ((xmlChildren rootNode).foldlM get_bucket_step ({}, [])).map
        (fun st => .ok { st.1 with objects := st.2 })

/-- Embeds `ds3_get_bucket`: like `ds3_get_service`, the dispatcher's error return
is discarded (line 745) and the blob is decoded regardless. -/
def ds3_get_bucket (client : Option Ds3Client) (request : Option Ds3Request)
    (t : Transport) (parseXml : String → Option Xml) :
    Option (Except Ds3Error Ds3GetBucketResponse) :=
  let xml_blob := deliveredBody client request t
  let _ := internal_request_dispatcher client request t
  ds3_get_bucket_decode xml_blob (parseXml xml_blob)

/-! ## Pass-through operations -/

/-- Embeds `ds3_get_object`: a plain dispatch with the caller's write-side callback. -/
def ds3_get_object (client : Option Ds3Client) (request : Option Ds3Request)
    (t : Transport) : Option Ds3Error :=
  (internal_request_dispatcher client request t).1

/-- Embeds `ds3_put_object`. -/
def ds3_put_object (client : Option Ds3Client) (request : Option Ds3Request)
    (t : Transport) : Option Ds3Error :=
  (internal_request_dispatcher client request t).1

/-- Embeds `ds3_delete_object`. -/
def ds3_delete_object (client : Option Ds3Client) (request : Option Ds3Request)
    (t : Transport) : Option Ds3Error :=
  (internal_request_dispatcher client request t).1

/-- Embeds `ds3_put_bucket`. -/
def ds3_put_bucket (client : Option Ds3Client) (request : Option Ds3Request)
    (t : Transport) : Option Ds3Error :=
  (internal_request_dispatcher client request t).1

/-- Embeds `ds3_delete_bucket`. -/
def ds3_delete_bucket (client : Option Ds3Client) (request : Option Ds3Request)
    (t : Transport) : Option Ds3Error :=
  (internal_request_dispatcher client request t).1

end Ds3

namespace Ds3

/-! ## XML codec: bulk manifests (`_parse_bulk_object`, `_parse_bulk_objects`,
`ds3_bulk`) -/

/-- Embeds `_parse_bulk_object`: read the `Name` and `Size` attributes of one
`Object` node (both `NULL`-checked); child nodes and unknown attributes are
logged and skipped. -/
def parse_bulk_object (object_node : Xml) : Ds3BulkObject :=
  (xmlAttrs object_node).foldl
    (fun (response : Ds3BulkObject) attrib =>
      if attrib.1 = "Name" then
        match attrText attrib.2 with
        | some t => { response with name := some t }
        | none => response
      else if attrib.1 = "Size" then
        match attrText attrib.2 with
        | some t => { response with size := strtoul10 t }
        | none => response
      else
        response)
    {}

/-- Embeds `_parse_bulk_objects`: read the `ServerId` and `ChunkNumber` attributes
of an `Objects` node, then collect its `Object` children in document order;
everything else is logged and skipped. -/
def parse_bulk_objects (objects_node : Xml) : Ds3BulkObjectList :=
  let withAttrs : Ds3BulkObjectList :=
    (xmlAttrs objects_node).foldl
      (fun (response : Ds3BulkObjectList) attrib =>
        if attrib.1 = "ServerId" then
          match attrText attrib.2 with
          | some t => { response with server_id := some t }
          | none => response
        else if attrib.1 = "ChunkNumber" then
          match attrText attrib.2 with
          | some t => { response with chunk_number := strtoul10 t }
          | none => response
        else
          response)
      {}
  { withAttrs with
      list := (xmlChildren objects_node).foldl
        (fun acc child_node =>
          if xmlName child_node = "Object" then acc ++ [parse_bulk_object child_node]
          else acc)
        [] }

/-- The `Objects` element `ds3_bulk` builds for the outbound manifest: one
`Object` element per entry, in supplied order, with `Name` and `Size`
attributes (`xmlSetProp` with a `NULL` name stores an attribute with no text
children, exactly like the empty string — both are the empty value here).
Sizes are `uint64_t` values printed with `%ld`. -/
def bulk_objects_node (obj_list : Ds3BulkObjectList) : Xml :=
  .elem "Objects" []
    (obj_list.list.map (fun obj =>
      .elem "Object"
        [("Name", match obj.name with | some s => s | none => ""),
         ("Size", sprintfLd (obj.size % 18446744073709551616))]
        []))

/-- The outbound `MasterObjectList` document `ds3_bulk` serialises and sends. -/
def bulk_request_xml (obj_list : Ds3BulkObjectList) : Xml :=
  .elem "MasterObjectList" [] [bulk_objects_node obj_list]

/-- The `ds3_bulk_response` struct. -/
structure Ds3BulkResponse where
  job_id : Option String := none
  list : List Ds3BulkObjectList := []
deriving DecidableEq

/-- The XML-decoding tail of `ds3_bulk`: root must be `MasterObjectList`;
the `JobId` attribute is `NULL`-checked; each `Objects` child becomes one
chunk. -/
def ds3_bulk_decode (raw : String) (root : Option Xml) :
    Option (Except Ds3Error Ds3BulkResponse) :=
  match root with
  | none =>
    some (.error (ds3_create_error .INVALID_XML
      ("Failed to parse response document.  The actual response is: " ++ raw)))
  | some rootNode =>
    if xmlName rootNode ≠ "MasterObjectList" then
      some (.error (ds3_create_error .INVALID_XML
        ("Expected the root element to be 'MasterObjectList'.  The actual response is: "
          ++ raw)))
    else
      let withJob : Ds3BulkResponse :=
        (xmlAttrs rootNode).foldl
          (fun (response : Ds3BulkResponse) attrib =>
            if attrib.1 = "JobId" then
              match attrText attrib.2 with
              | some t => { response with job_id := some t }
              | none => response
            else
              response)
          {}
      some (.ok { withJob with
        list := (xmlChildren rootNode).foldl
          (fun acc child_node =>
            if xmlName child_node = "Objects" then
              acc ++ [parse_bulk_objects child_node]
            else acc)
          [] })

/-- Embeds `ds3_bulk`: argument checks first (client/request, then a non-empty
object list), then the manifest is built and the exchange performed directly
through `_net_process_request`; unlike `ds3_get_service`/`ds3_get_bucket`
its error return is checked and propagated, and only on success is the
response blob decoded.  (`request->length` is set to the serialised
manifest's byte length before sending; the serialisation
`xmlDocDumpFormatMemory` is libxml-internal and no claim depends on the
length, so the embedding leaves the request unchanged.) -/
def ds3_bulk (client : Option Ds3Client) (request : Option Ds3Request)
    (t : Transport) (parseXml : String → Option Xml) :
    Option (Except Ds3Error Ds3BulkResponse) :=
  match client, request with
  | some c, some req =>
    match req.object_list with
    | none =>
      some (.error (ds3_create_error .MISSING_ARGS
        "The bulk command requires a list of objects to process"))
    | some obj_list =>
      if obj_list.list.length = 0 then
        some (.error (ds3_create_error .MISSING_ARGS
          "The bulk command requires a list of objects to process"))
      else
        match net_process_request c req t with
        | (some error_response, _) => some (.error error_response)
        | (none, _) =>
          let xml_blob := if t.handleOk then t.bodyDelivered else ""
          ds3_bulk_decode xml_blob (parseXml xml_blob)
  | _, _ =>
    some (.error (ds3_create_error .MISSING_ARGS
      "All arguments must be filled in for request processing"))

end Ds3

namespace Ds3

/-! ## Supporting lemmas -/

theorem digitChar_isDigit (d : Nat) : charIsDigit (digitChar d) = true := by
  unfold digitChar
  split <;> decide

theorem charIsDigit_not_space (c : Char) (h : charIsDigit c = true) :
    isGSpace c = false := by
  unfold charIsDigit at h
  unfold isGSpace
  simp only [Bool.and_eq_true, decide_eq_true_eq] at h
  simp only [Bool.or_eq_false_iff, decide_eq_false_iff_not]
  refine ⟨⟨⟨⟨⟨?_, ?_⟩, ?_⟩, ?_⟩, ?_⟩, ?_⟩ <;>
    (intro hc; subst hc; exact absurd h (by decide))

theorem charIsDigit_ne_sign (c : Char) (h : charIsDigit c = true) :
    c ≠ '-' ∧ c ≠ '+' := by
  unfold charIsDigit at h
  simp only [Bool.and_eq_true, decide_eq_true_eq] at h
  constructor <;> (intro hc; subst hc; exact absurd h (by decide))

theorem digitsVal_append_digit (cs : List Char) (c : Char) :
    digitsVal (cs ++ [c]) = digitsVal cs * 10 + (c.toNat - 48) := by
  unfold digitsVal
  rw [List.foldl_append]
  rfl

theorem digitChar_toNat (d : Nat) (h : d < 10) :
    (digitChar d).toNat = 48 + d := by
  interval_cases d <;> decide

theorem natDigitsAux_spec (fuel : Nat) :
    ∀ n, n ≤ fuel →
      digitsVal (natDigitsAux fuel n) = n ∧
      ∀ c ∈ natDigitsAux fuel n, charIsDigit c = true := by
  induction fuel with
  | zero =>
    intro n hn
    have : n = 0 := by omega
    subst this
    exact ⟨rfl, by intro c hc; cases hc⟩
  | succ fuel ih =>
    intro n hn
    by_cases h0 : n = 0
    · subst h0
      simp [natDigitsAux, digitsVal]
    · have hdiv : n / 10 ≤ fuel := by
        have := Nat.div_lt_self (Nat.pos_of_ne_zero h0) (by omega : 1 < 10)
        omega
      obtain ⟨ihv, ihd⟩ := ih (n / 10) hdiv
      have hstep : natDigitsAux (fuel + 1) n =
          natDigitsAux fuel (n / 10) ++ [digitChar (n % 10)] := by
        simp [natDigitsAux, h0]
      constructor
      · rw [hstep, digitsVal_append_digit, ihv,
            digitChar_toNat (n % 10) (Nat.mod_lt n (by omega))]
        omega
      · intro c hc
        rw [hstep] at hc
        rcases List.mem_append.mp hc with hc | hc
        · exact ihd c hc
        · rcases List.mem_singleton.mp hc with rfl
          exact digitChar_isDigit _

theorem natDecimalChars_spec (n : Nat) :
    digitsVal (natDecimalChars n) = n ∧
    natDecimalChars n ≠ [] ∧
    ∀ c ∈ natDecimalChars n, charIsDigit c = true := by
  unfold natDecimalChars
  by_cases h0 : n = 0
  · subst h0
    refine ⟨by decide, by decide, ?_⟩
    intro c hc
    simp at hc
    subst hc
    decide
  · simp only [h0, if_false]
    obtain ⟨hv, hd⟩ := natDigitsAux_spec n n (le_refl n)
    refine ⟨hv, ?_, hd⟩
    obtain ⟨m, rfl⟩ := Nat.exists_eq_succ_of_ne_zero h0
    simp [natDigitsAux]

/-- Embeds `strtoul` applied to an unsigned, non-empty all-digit rendering. -/
theorem strtoul10Chars_digits (cs : List Char) (hne : cs ≠ [])
    (hd : ∀ c ∈ cs, charIsDigit c = true)
    (hlt : digitsVal cs < 18446744073709551616) :
    strtoul10Chars cs = digitsVal cs := by
  obtain ⟨c, rest, rfl⟩ := List.exists_cons_of_ne_nil hne
  have hc : charIsDigit c = true := hd c (List.mem_cons_self c rest)
  have hns : isGSpace c = false := charIsDigit_not_space c hc
  obtain ⟨hm, hp⟩ := charIsDigit_ne_sign c hc
  unfold strtoul10Chars
  rw [List.dropWhile_cons_of_neg (by simp [hns])]
  unfold strtoulBody
  simp only [List.head?_cons]
  rw [if_neg (by simp [hm, hp]), List.takeWhile_eq_self_iff.mpr hd]
  unfold strtoulClamp
  rw [if_neg (by omega), if_neg (by simp [hm])]

/-- Embeds `strtoul` applied to a negative all-digit rendering wraps modulo 2^64. -/
theorem strtoul10Chars_neg_digits (cs : List Char) (_hne : cs ≠ [])
    (hd : ∀ c ∈ cs, charIsDigit c = true)
    (hlt : digitsVal cs < 18446744073709551616) :
    strtoul10Chars ('-' :: cs) =
      (18446744073709551616 - digitsVal cs) % 18446744073709551616 := by
  unfold strtoul10Chars
  rw [List.dropWhile_cons_of_neg (by decide)]
  unfold strtoulBody
  simp only [List.head?_cons]
  rw [if_pos (by simp), List.tail_cons, List.takeWhile_eq_self_iff.mpr hd]
  unfold strtoulClamp
  rw [if_neg (by omega), if_pos (by simp)]

theorem strtoul10_sprintfLd (n : Nat) (h : n < 18446744073709551616) :
    strtoul10 (sprintfLd n) = n := by
  unfold strtoul10 sprintfLd
  by_cases hsmall : n < 9223372036854775808
  · rw [if_pos hsmall]
    obtain ⟨hv, hne, hd⟩ := natDecimalChars_spec n
    show strtoul10Chars (natDecimalChars n) = n
    rw [strtoul10Chars_digits _ hne hd (by omega), hv]
  · rw [if_neg hsmall]
    obtain ⟨hv2, hne2, hd2⟩ := natDecimalChars_spec (18446744073709551616 - n)
    show strtoul10Chars ('-' :: natDecimalChars (18446744073709551616 - n)) = n
    rw [strtoul10Chars_neg_digits _ hne2 hd2 (by omega), hv2]
    omega

theorem sprintfLd_ne_empty (n : Nat) : sprintfLd n ≠ "" := by
  unfold sprintfLd
  intro hcontra
  have hdata := congrArg String.data hcontra
  simp only at hdata
  by_cases hsmall : n < 9223372036854775808
  · rw [if_pos hsmall] at hdata
    exact (natDecimalChars_spec n).2.1 hdata
  · rw [if_neg hsmall] at hdata
    cases hdata

end Ds3

namespace Ds3

theorem parse_bulk_object_node (o : Ds3BulkObject)
    (hs : o.size < 18446744073709551616) (hn : o.name ≠ some "") :
    parse_bulk_object (.elem "Object"
      [("Name", match o.name with | some s => s | none => ""),
       ("Size", sprintfLd (o.size % 18446744073709551616))] []) = o := by
  obtain ⟨nm, sz⟩ := o
  unfold parse_bulk_object xmlAttrs
  simp only [List.foldl_cons, List.foldl_nil]
  rw [Nat.mod_eq_of_lt hs]
  cases nm with
  | none =>
    show (if ("Size" : String) = "Name" then _ else _) = _
    rw [if_neg (by decide)]
    show (match attrText (sprintfLd sz) with | some t => _ | none => _) = _
    rw [show attrText (sprintfLd sz) = some (sprintfLd sz) from
      if_neg (sprintfLd_ne_empty sz)]
    show ({ name := none, size := strtoul10 (sprintfLd sz) } : Ds3BulkObject) = _
    rw [strtoul10_sprintfLd sz hs]
  | some s =>
    have hs0 : s ≠ "" := fun hcontra => hn (by rw [hcontra])
    show (if ("Size" : String) = "Name" then _ else _) = _
    rw [if_neg (by decide)]
    show (match attrText (sprintfLd sz) with | some t => _ | none => _) = _
    rw [show attrText (sprintfLd sz) = some (sprintfLd sz) from
      if_neg (sprintfLd_ne_empty sz)]
    show ({ (match attrText s with
             | some t => { name := some t : Ds3BulkObject }
             | none => { name := none }) with
            size := strtoul10 (sprintfLd sz) } : Ds3BulkObject) = _
    rw [show attrText s = some s from if_neg hs0, strtoul10_sprintfLd sz hs]

theorem foldl_object_children (xs : List Xml)
    (hx : ∀ x ∈ xs, xmlName x = "Object") :
    ∀ acc : List Ds3BulkObject,
      xs.foldl
        (fun acc2 child_node =>
          if xmlName child_node = "Object" then acc2 ++ [parse_bulk_object child_node]
          else acc2) acc
      = acc ++ xs.map parse_bulk_object := by
  induction xs with
  | nil => intro acc; simp
  | cons x rest ih =>
    intro acc
    simp only [List.foldl_cons, List.map_cons]
    rw [if_pos (hx x (List.mem_cons_self x rest)),
        ih (fun y hy => hx y (List.mem_cons_of_mem x hy))]
    simp

end Ds3

namespace Ds3

/-! ## Claim theorems -/

/-- C7 (amended): encoding a `BulkObjectList` into the outbound
`MasterObjectList` manifest and decoding its `Objects` element with
`_parse_bulk_objects` yields the same objects — same count, same order, equal
name and size — provided each size fits in `uint64_t` and no name is the
empty string (an empty name is stored as an empty attribute value, which
libxml reads back as `NULL`, so it decodes as absent). -/
theorem c7_bulk_round_trip (obj_list : Ds3BulkObjectList)
    (h : ∀ o ∈ obj_list.list,
      o.size < 18446744073709551616 ∧ o.name ≠ some "") :
    (parse_bulk_objects (bulk_objects_node obj_list)).list = obj_list.list := by
  unfold parse_bulk_objects bulk_objects_node
  simp only [xmlAttrs, xmlChildren, List.foldl_nil]
  rw [foldl_object_children _ (by
    intro x hx
    obtain ⟨o, _, rfl⟩ := List.mem_map.mp hx
    rfl)]
  rw [List.nil_append, List.map_map]
  have : ∀ o ∈ obj_list.list,
      (parse_bulk_object ∘ fun obj => Xml.elem "Object"
        [("Name", match obj.name with | some s => s | none => ""),
         ("Size", sprintfLd (obj.size % 18446744073709551616))] []) o = id o := by
    intro o ho
    exact parse_bulk_object_node o (h o ho).1 (h o ho).2
  rw [List.map_congr_left this, List.map_id]

/-- C7 (counterexample): for the single-object list whose name is the empty
string, encode-then-decode yields an absent name, not the original empty
string, so the claim as stated fails. -/
theorem c7_counterexample :
    (parse_bulk_objects (bulk_objects_node
        { list := [{ name := some "", size := 0 }] })).list
      = [{ name := none, size := 0 }] ∧
    ({ name := none, size := 0 } : Ds3BulkObject) ≠ { name := some "", size := 0 } := by
  constructor
  · rfl
  · decide

/-- C7 (witness): the spec's own three-object example round-trips exactly. -/
theorem c7_bulk_round_trip_witness :
    (parse_bulk_objects (bulk_objects_node
        { list := [{ name := some "a", size := 10 },
                   { name := some "b", size := 20 },
                   { name := some "c", size := 30 }] })).list
      = [{ name := some "a", size := 10 },
         { name := some "b", size := 20 },
         { name := some "c", size := 30 }] :=
  c7_bulk_round_trip
    { list := [{ name := some "a", size := 10 },
               { name := some "b", size := 20 },
               { name := some "c", size := 30 }] }
    (by decide)

end Ds3

namespace Ds3

/-- C2 (counterexample): `ds3_init_get_bulk` is a bucket-level factory (it
takes only a bucket name), but the path it builds is
`/_rest_/bucket/<bucket>`, not `/<bucket>`. -/
theorem c2_counterexample :
    (ds3_init_get_bulk "bucket1" { list := [{ name := some "a", size := 1 }] }).path
      = "/_rest_/bucket/" ++ "bucket1" ∧
    (ds3_init_get_bulk "bucket1" { list := [{ name := some "a", size := 1 }] }).path
      ≠ "/" ++ "bucket1" := by
  exact ⟨rfl, by decide⟩

/-- C2 (amended): the non-bulk bucket-level factories build path
`/<bucket>`, the object-level factories `/<bucket>/<object>`; the bulk
factories build `/_rest_/bucket/<bucket>`, set exactly the one query
parameter `operation=start_bulk_get` resp. `start_bulk_put`, and attach the
caller's object list; non-bulk factories set no query parameters and attach
no list.  (The factories are pure `Ds3Request` constructors: they take no
transport and produce no signature, so no signing or network activity can
occur at construction time.) -/
theorem c2_factory_paths (bucket object : String) (len : Nat)
    (lst : Ds3BulkObjectList) :
    ((ds3_init_get_bucket bucket).path = "/" ++ bucket ∧
     (ds3_init_put_bucket bucket).path = "/" ++ bucket ∧
     (ds3_init_delete_bucket bucket).path = "/" ++ bucket) ∧
    ((ds3_init_get_object bucket object).path = "/" ++ bucket ++ "/" ++ object ∧
     (ds3_init_put_object bucket object len).path = "/" ++ bucket ++ "/" ++ object ∧
     (ds3_init_delete_object bucket object).path = "/" ++ bucket ++ "/" ++ object) ∧
    ((ds3_init_get_bucket bucket).query_params = [] ∧
     (ds3_init_get_bucket bucket).object_list = none ∧
     (ds3_init_get_object bucket object).query_params = [] ∧
     (ds3_init_get_object bucket object).object_list = none) ∧
    ((ds3_init_get_bulk bucket lst).path = "/_rest_/bucket/" ++ bucket ∧
     (ds3_init_get_bulk bucket lst).query_params
        = [("operation", "start_bulk_get")] ∧
     (ds3_init_get_bulk bucket lst).object_list = some lst) ∧
    ((ds3_init_put_bulk bucket lst).path = "/_rest_/bucket/" ++ bucket ∧
     (ds3_init_put_bulk bucket lst).query_params
        = [("operation", "start_bulk_put")] ∧
     (ds3_init_put_bulk bucket lst).object_list = some lst) := by
  exact ⟨⟨rfl, rfl, rfl⟩, ⟨rfl, rfl, rfl⟩, ⟨rfl, rfl, rfl, rfl⟩,
         ⟨rfl, rfl, rfl⟩, ⟨rfl, rfl, rfl⟩⟩

/-- A client/request/transport triple exercising the query-parameter bug. -/
def c4_client : Ds3Client :=
  { endpoint := "http://e", creds := { access_id := "id", secret_key := "key" } }

def c4_request : Ds3Request :=
  { verb := .get, path := "/p", query_params := [("a", "1"), ("b", "2")] }

def c4_transport : Transport := { now := "D" }

/-- C4 (code bug): `_hash_for_each` never increments `entries->size`, so
every pair is written to slot 0 and `g_strjoinv` sees only the last one:
with two query parameters the URL carries a single `k=v` pair instead of
both joined by `&`.  The empty and one-parameter cases behave as claimed. -/
theorem c4_query_string_bug :
    net_gen_query_params [("a", "1"), ("b", "2")] = some "b=2" ∧
    net_gen_query_params [("a", "1"), ("b", "2")] ≠ some "a=1&b=2" ∧
    net_gen_query_params [("a", "1"), ("b", "2")] ≠ some "b=2&a=1" ∧
    (net_process_request c4_client c4_request c4_transport).2.map SentRequest.url
      = some "http://e/p?b=2" ∧
    net_gen_query_params [] = none ∧
    net_gen_query_params [("operation", "start_bulk_get")]
      = some "operation=start_bulk_get" := by
  refine ⟨rfl, by decide, by decide, rfl, rfl, rfl⟩

/-- The client and failing transport for the discarded-error bug. -/
def c5_client : Ds3Client :=
  { endpoint := "http://h", creds := { access_id := "aid", secret_key := "sk" } }

def c5_transport : Transport :=
  { now := "D", bodyDelivered := "", curlError := some "connection refused" }

def c5_transport_full : Transport :=
  { now := "D", bodyDelivered := "<ListAllMyBucketsResult/>",
    curlError := some "timeout" }

/-- C5 (code bug): on a failed exchange the dispatcher does return the
`FAILED_REQUEST` error, but `ds3_get_service` discards that return value
(ds3.c line 632) and decodes the blob anyway: with no bytes delivered it
reports `INVALID_XML`, and with a complete body delivered before the
failure it returns a populated response and no error at all. -/
theorem c5_transport_error_discarded :
    (internal_request_dispatcher (some c5_client) (some ds3_init_get_service)
        c5_transport).1
      = some { code := .FAILED_REQUEST,
               message := "Request failed: connection refused" } ∧
    ds3_get_service (some c5_client) (some ds3_init_get_service) c5_transport
        (fun _ => none)
      = some (.error { code := .INVALID_XML,
                       message := "Failed to parse response document.  The actual response is: " }) ∧
    Ds3ErrorCode.INVALID_XML ≠ Ds3ErrorCode.FAILED_REQUEST ∧
    ds3_get_service (some c5_client) (some ds3_init_get_service)
        c5_transport_full
        (fun _ => some (.elem "ListAllMyBucketsResult" [] []))
      = some (.ok {}) := by
  refine ⟨rfl, rfl, by decide, rfl⟩

/-- C10 (confirmed): a non-empty line fed after the status line that has no
`": "` separator splits into a single component; the value component is
absent, and the C reads it anyway (`g_strdup(NULL)` then `strlen(NULL)`), so
the total embedding returns `none` — the parser is partial there. -/
theorem c10_header_separator_unhandled :
    gStrsplit "X-Amz-Meta" ": " 2 = ["X-Amz-Meta"] ∧
    (gStrsplit "X-Amz-Meta" ": " 2).get? 1 = none ∧
    process_header_line
        { status_code := 200, status_message := "OK", header_count := 1,
          headers := [] }
        "X-Amz-Meta\r\n" = none := by
  refine ⟨by decide, by decide, by decide⟩

end Ds3

namespace Ds3

theorem listStartsWith_true_iff (cs : List Char) :
    listStartsWith cs ['t', 'r', 'u', 'e'] = true ↔
      ∃ rest, cs = 't' :: 'r' :: 'u' :: 'e' :: rest := by
  match cs with
  | [] => simp [listStartsWith]
  | [a] => simp [listStartsWith]
  | [a, b] => simp [listStartsWith]
  | [a, b, c] => simp [listStartsWith]
  | a :: b :: c :: d :: rest =>
    simp only [listStartsWith, Bool.and_eq_true, decide_eq_true_eq, and_true]
    constructor
    · rintro ⟨rfl, rfl, rfl, rfl⟩
      exact ⟨rest, rfl⟩
    · rintro ⟨rest2, heq⟩
      injection heq with h1 heq
      injection heq with h2 heq
      injection heq with h3 heq
      injection heq with h4 heq
      exact ⟨h1, h2, h3, h4⟩

/-- C9 (counterexample): an `IsTruncated` element whose text is `"truefoo"`
decodes to a truncated flag of `true` although the text is not the string
`"true"` — the C compares only the first four bytes. -/
theorem c9_counterexample :
    ds3_get_bucket_decode "" (some (.elem "ListBucketResult" []
        [.elem "IsTruncated" [] [.text "truefoo"]]))
      = some (.ok { is_truncated := true }) ∧
    "truefoo" ≠ "true" := by
  exact ⟨rfl, by decide⟩

/-- C9 (amended): for a decoded bucket listing, the truncated flag is true
exactly when the text content of the `IsTruncated` element begins with the
four bytes `true` (`strncmp(text, "true", 4) == 0`); text not starting with
`true` — including any other content — yields false. -/
theorem c9_truncated_first_four_bytes (raw t : String) :
    ds3_get_bucket_decode raw (some (.elem "ListBucketResult" []
        [.elem "IsTruncated" [] [.text t]]))
      = some (.ok { is_truncated := gStrHasPrefix t "true" }) ∧
    (gStrHasPrefix t "true" = true ↔
      ∃ rest, t.data = 't' :: 'r' :: 'u' :: 'e' :: rest) := by
  exact ⟨rfl, listStartsWith_true_iff t.data⟩

end Ds3

namespace Ds3

theorem map_ok_ne_error {α : Type} (x : Option α) (e : Ds3Error) :
    x.map Except.ok ≠ some (Except.error e) := by
  cases x <;> simp

/-- C6 (confirmed): each decode operation fails exactly when the body is
unparseable or the parsed root element name differs from the expected one;
the error is `INVALID_XML` and its message carries the raw response bytes;
with the expected root no error is ever produced, whatever child elements or
attributes the document carries. -/
theorem c6_invalid_xml (raw : String) (rootNode : Xml) :
    (ds3_get_service_decode raw none
      = some (.error (ds3_create_error .INVALID_XML
        ("Failed to parse response document.  The actual response is: " ++ raw))) ∧
     ds3_get_bucket_decode raw none
      = some (.error (ds3_create_error .INVALID_XML
        ("Failed to parse response document.  The actual response is: " ++ raw))) ∧
     ds3_bulk_decode raw none
      = some (.error (ds3_create_error .INVALID_XML
        ("Failed to parse response document.  The actual response is: " ++ raw)))) ∧
    ((xmlName rootNode ≠ "ListAllMyBucketsResult" →
      ds3_get_service_decode raw (some rootNode)
        = some (.error (ds3_create_error .INVALID_XML
          ("Expected the root element to be 'ListAllMyBucketsResult'.  The actual response is: " ++ raw)))) ∧
     (xmlName rootNode ≠ "ListBucketResult" →
      ds3_get_bucket_decode raw (some rootNode)
        = some (.error (ds3_create_error .INVALID_XML
          ("Expected the root element to be 'ListBucketsResult'.  The actual response is: " ++ raw)))) ∧
     (xmlName rootNode ≠ "MasterObjectList" →
      ds3_bulk_decode raw (some rootNode)
        = some (.error (ds3_create_error .INVALID_XML
          ("Expected the root element to be 'MasterObjectList'.  The actual response is: " ++ raw))))) ∧
    ((xmlName rootNode = "ListAllMyBucketsResult" →
      ∀ e, ds3_get_service_decode raw (some rootNode) ≠ some (.error e)) ∧
     (xmlName rootNode = "ListBucketResult" →
      ∀ e, ds3_get_bucket_decode raw (some rootNode) ≠ some (.error e)) ∧
     (xmlName rootNode = "MasterObjectList" →
      ∀ e, ds3_bulk_decode raw (some rootNode) ≠ some (.error e))) := by
  refine ⟨⟨rfl, rfl, rfl⟩, ⟨?_, ?_, ?_⟩, ⟨?_, ?_, ?_⟩⟩
  · intro h
    simp only [ds3_get_service_decode]
    rw [if_pos h]
  · intro h
    simp only [ds3_get_bucket_decode]
    rw [if_pos h]
  · intro h
    simp only [ds3_bulk_decode]
    rw [if_pos h]
  · intro h e
    simp only [ds3_get_service_decode]
    rw [if_neg (by simp [h])]
    intro hcontra
    rcases Option.map_eq_some'.mp hcontra with ⟨a, ha, hfa⟩
    simp at hfa
  · intro h e
    simp only [ds3_get_bucket_decode]
    rw [if_neg (by simp [h])]
    intro hcontra
    rcases Option.map_eq_some'.mp hcontra with ⟨a, ha, hfa⟩
    simp at hfa
  · intro h e
    simp only [ds3_bulk_decode]
    rw [if_neg (by simp [h])]
    intro hcontra
    simp at hcontra

/-- C6 (witness): a concrete wrong-root document and a concrete unparseable
body produce the `INVALID_XML` errors, with the raw bytes in the message. -/
theorem c6_invalid_xml_witness :
    ds3_get_service_decode "bogus-bytes" (some (.elem "Wrong" [] []))
      = some (.error (ds3_create_error .INVALID_XML
        ("Expected the root element to be 'ListAllMyBucketsResult'.  The actual response is: " ++ "bogus-bytes"))) ∧
    ds3_bulk_decode "junk" none
      = some (.error (ds3_create_error .INVALID_XML
        ("Failed to parse response document.  The actual response is: " ++ "junk"))) := by
  exact ⟨(c6_invalid_xml "bogus-bytes" (.elem "Wrong" [] [])).2.1.1 (by decide),
         (c6_invalid_xml "junk" (.elem "Wrong" [] [])).1.2.2⟩

end Ds3

namespace Ds3

theorem net_process_request_error_code (c : Ds3Client) (r : Ds3Request)
    (t : Transport) (e : Ds3Error) (s : Option SentRequest)
    (h : net_process_request c r t = (some e, s)) :
    e.code = .FAILED_REQUEST ∨ e.code = .CURL_HANDLE := by
  unfold net_process_request at h
  by_cases hh : t.handleOk
  · rw [if_pos hh] at h
    rcases hcurl : t.curlError with _ | diag
    · rw [hcurl] at h
      cases h
    · rw [hcurl] at h
      injection h with h1 h2
      injection h1 with h3
      rw [← h3]
      exact Or.inl rfl
  · rw [if_neg hh] at h
    injection h with h1 h2
    injection h1 with h3
    rw [← h3]
    exact Or.inr rfl

theorem ds3_bulk_decode_error_code (raw : String) (root : Option Xml)
    (e : Ds3Error) (h : ds3_bulk_decode raw root = some (.error e)) :
    e.code = .INVALID_XML := by
  cases root with
  | none =>
    simp only [ds3_bulk_decode] at h
    injection h with h1
    injection h1 with h2
    rw [← h2]
    rfl
  | some rootNode =>
    simp only [ds3_bulk_decode] at h
    by_cases hr : xmlName rootNode ≠ "MasterObjectList"
    · rw [if_pos hr] at h
      injection h with h1
      injection h1 with h2
      rw [← h2]
      rfl
    · rw [if_neg hr] at h
      simp at h

/-- The condition under which the claim says `ds3_bulk` must report
`MISSING_ARGS`: absent client, absent request, no bulk-object list, or an
empty list. -/
def bulkArgsMissing (client : Option Ds3Client) (request : Option Ds3Request) :
    Bool :=
  match client, request with
  | some _, some req =>
    match req.object_list with
    | none => true
    | some l => l.list.length = 0
  | _, _ => true

/-- C8 (confirmed): `ds3_bulk` reports `MISSING_ARGS` exactly when the
client is absent, the request is absent, the request carries no bulk-object
list, or the carried list is empty; in those cases the result is the same
for every transport and parser (no signing or network activity can have
happened), and in every other case `MISSING_ARGS` is never returned. -/
theorem c8_bulk_missing_args (client : Option Ds3Client)
    (request : Option Ds3Request) (t : Transport)
    (parseXml : String → Option Xml) :
    ((∃ e, ds3_bulk client request t parseXml = some (.error e) ∧
        e.code = .MISSING_ARGS) ↔ bulkArgsMissing client request = true) ∧
    (bulkArgsMissing client request = true →
      ∀ (t2 : Transport) (parseXml2 : String → Option Xml),
        ds3_bulk client request t parseXml = ds3_bulk client request t2 parseXml2) := by
  cases client with
  | none =>
    refine ⟨⟨fun _ => rfl, fun _ => ?_⟩, fun _ t2 p2 => rfl⟩
    exact ⟨_, rfl, rfl⟩
  | some c =>
    cases request with
    | none =>
      refine ⟨⟨fun _ => rfl, fun _ => ?_⟩, fun _ t2 p2 => rfl⟩
      exact ⟨_, rfl, rfl⟩
    | some req =>
      rcases hol : req.object_list with _ | l
      · constructor
        · constructor
          · intro _
            simp [bulkArgsMissing, hol]
          · intro _
            exact ⟨ds3_create_error .MISSING_ARGS
              "The bulk command requires a list of objects to process",
              by simp [ds3_bulk, hol], rfl⟩
        · intro _ t2 p2
          simp [ds3_bulk, hol]
      · by_cases hlen : l.list.length = 0
        · constructor
          · constructor
            · intro _
              simp [bulkArgsMissing, hol, hlen]
            · intro _
              exact ⟨ds3_create_error .MISSING_ARGS
                "The bulk command requires a list of objects to process",
                by simp [ds3_bulk, hol, hlen], rfl⟩
          · intro _ t2 p2
            simp [ds3_bulk, hol, hlen]
        · constructor
          · constructor
            · rintro ⟨e, he, hcode⟩
              simp only [ds3_bulk, hol] at he
              rw [if_neg hlen] at he
              rcases hnet : net_process_request c req t with ⟨err, sent⟩
              rw [hnet] at he
              cases err with
              | some e2 =>
                injection he with h1
                injection h1 with h2
                rcases net_process_request_error_code c req t e2 sent hnet with hc | hc
                · rw [h2] at hc
                  rw [hc] at hcode
                  cases hcode
                · rw [h2] at hc
                  rw [hc] at hcode
                  cases hcode
              | none =>
                have := ds3_bulk_decode_error_code _ _ e he
                rw [this] at hcode
                cases hcode
            · intro hmiss
              simp [bulkArgsMissing, hol, hlen] at hmiss
          · intro hmiss
            simp [bulkArgsMissing, hol, hlen] at hmiss

/-- C8 (witness): with an absent client the bulk call reports
`MISSING_ARGS` and ignores the transport entirely. -/
theorem c8_bulk_missing_args_witness :
    (∃ e, ds3_bulk none none { now := "D" } (fun _ => none)
        = some (.error e) ∧ e.code = .MISSING_ARGS) ∧
    ds3_bulk none none { now := "D" } (fun _ => none)
      = ds3_bulk none none { now := "E", curlError := some "x" } (fun _ => none) := by
  refine ⟨(c8_bulk_missing_args none none { now := "D" } (fun _ => none)).1.mpr rfl,
          (c8_bulk_missing_args none none { now := "D" } (fun _ => none)).2 rfl
            { now := "E", curlError := some "x" } (fun _ => none)⟩

end Ds3

namespace Ds3

theorem strchomp_prefix_nonempty (line : String)
    (hpre : gStrHasPrefix (strchomp line) "HTTP/1.1" = true) :
    ¬ (strchomp line).data.length = 0 := by
  intro hlen
  have hd : (strchomp line).data = [] := List.length_eq_zero.mp hlen
  rw [gStrHasPrefix, hd] at hpre
  cases hpre

/-- C3 (confirmed): the status line `HTTP/1.1 200 OK` yields status code 200
and message `OK`; a `HTTP/1.1 100 Continue` line leaves the whole parser
state unchanged (the C returns before `header_count++`), so a following
`HTTP/1.1 201 Created` is processed as the real status line, yielding 201 and
`Created`; and in general the status message is the status line's remaining
space-delimited tokens rejoined with single spaces. -/
theorem c3_status_lines :
    (process_header_line emptyResponseData "HTTP/1.1 200 OK\r\n"
      = some ({ status_code := 200, status_message := "OK", header_count := 1,
                headers := [] }, 17)) ∧
    (∀ rd : ResponseData, rd.header_count = 0 →
      process_header_line rd "HTTP/1.1 100 Continue\r\n" = some (rd, 23)) ∧
    (process_header_line emptyResponseData "HTTP/1.1 201 Created\r\n"
      = some ({ status_code := 201, status_message := "Created",
                header_count := 1, headers := [] }, 22)) ∧
    (∀ (rd : ResponseData) (line codeTok : String) (rest : List String),
      rd.header_count = 0 →
      2 ≤ strByteSize line →
      gStrHasPrefix (strchomp line) "HTTP/1.1" = true →
      gStrsplit (strchomp line) " " 1000 = "HTTP/1.1" :: codeTok :: rest →
      intToUint64 (gAsciiStrtoll codeTok) ≠ 0 →
      intToUint64 (gAsciiStrtoll codeTok) ≠ 100 →
      process_header_line rd line
        = some ({ rd with
                    status_code := intToUint64 (gAsciiStrtoll codeTok),
                    status_message := strjoinv " " rest,
                    header_count := rd.header_count + 1 }, strByteSize line)) := by
  refine ⟨?_, ?_, ?_, ?_⟩
  · decide
  · intro rd h0
    simp only [process_header_line]
    rw [if_neg (by decide), if_neg (by decide), if_pos (by omega),
        if_pos (by decide : gStrHasPrefix (strchomp "HTTP/1.1 100 Continue\r\n")
          "HTTP/1.1" = true)]
    rfl
  · decide
  · intro rd line codeTok rest h0 hsize hpre hsplit hnz hn100
    simp only [process_header_line]
    rw [if_neg (by omega), if_neg (strchomp_prefix_nonempty line hpre),
        if_pos (by omega : rd.header_count < 1), if_pos hpre, hsplit]
    simp only [List.get?_cons_succ, List.get?_cons_zero, List.drop_succ_cons,
               List.drop_zero]
    rw [if_neg hnz, if_neg hn100]

/-- C3 (witness): the general status-line clause applied to
`HTTP/1.1 404 Not Found`, and the 100-line clause at the fresh state. -/
theorem c3_status_lines_witness :
    process_header_line emptyResponseData "HTTP/1.1 404 Not Found\r\n"
      = some ({ status_code := 404, status_message := "Not Found",
                header_count := 1, headers := [] }, 24) ∧
    process_header_line emptyResponseData "HTTP/1.1 100 Continue\r\n"
      = some (emptyResponseData, 23) := by
  refine ⟨?_, c3_status_lines.2.1 emptyResponseData rfl⟩
  have h := c3_status_lines.2.2.2 emptyResponseData "HTTP/1.1 404 Not Found\r\n"
    "404" ["Not", "Found"] rfl (by decide) (by decide) (by decide) (by decide)
    (by decide)
  exact h

end Ds3

namespace Ds3

theorem string_append_assoc (a b c : String) : a ++ b ++ c = a ++ (b ++ c) :=
  String.append_assoc a b c

/-- C1 (confirmed): the canonical string is the exact byte sequence
`verb \n md5 \n content-type \n date \n amz-headers resource-path`; the
signature is the Base64 encoding of the HMAC-SHA1 of that sequence keyed by
the secret key; and whenever the executor obtains a transport handle it
sends the `Authorization` header with value
`AWS <access_id>:<that signature>` (signed over the request's path and date
with empty content-type, MD5 and amz-headers). -/
theorem c1_signing (creds : Ds3Creds) (verb : HttpVerb)
    (resource date content_type md5 amz : String) :
    (generate_signature_str verb resource date content_type md5 amz =
      net_get_verb verb ++ "\n" ++ md5 ++ "\n" ++ content_type ++ "\n" ++
        date ++ "\n" ++ amz ++ resource) ∧
    (net_compute_signature creds verb resource date content_type md5 amz =
      base64Encode (hmacSha1 (strBytes creds.secret_key)
        (strBytes (net_get_verb verb ++ "\n" ++ md5 ++ "\n" ++ content_type ++
          "\n" ++ date ++ "\n" ++ amz ++ resource)))) ∧
    (∀ (client : Ds3Client) (request : Ds3Request) (t : Transport),
      t.handleOk = true →
      ∃ sent, (net_process_request client request t).2 = some sent ∧
        sent.authHeader = "Authorization: " ++
          ("AWS " ++ (client.creds.access_id ++
            (":" ++ net_compute_signature client.creds request.verb
              request.path t.now "" "" "")))) := by
  refine ⟨rfl, rfl, ?_⟩
  intro client request t hh
  have hval : "Authorization: AWS " ++ client.creds.access_id ++ ":" ++
        net_compute_signature client.creds request.verb request.path t.now "" "" ""
      = "Authorization: " ++
        ("AWS " ++ (client.creds.access_id ++
          (":" ++ net_compute_signature client.creds request.verb
            request.path t.now "" "" ""))) := by
    rw [show ("Authorization: AWS " : String) = "Authorization: " ++ "AWS " from rfl,
        string_append_assoc, string_append_assoc, string_append_assoc]
  unfold net_process_request
  rw [if_pos hh]
  cases t.curlError with
  | none => exact ⟨_, rfl, hval⟩
  | some diag => exact ⟨_, rfl, hval⟩

/-- C1 (witness): the executor part instantiated at a concrete client,
request and transport. -/
theorem c1_signing_witness :
    ∃ sent, (net_process_request c4_client { verb := .get, path := "/b" }
        { now := "Thu, 01 May 2014 10:00:00 +0000" }).2 = some sent ∧
      sent.authHeader = "Authorization: " ++
        ("AWS " ++ (c4_client.creds.access_id ++
          (":" ++ net_compute_signature c4_client.creds HttpVerb.get "/b"
            "Thu, 01 May 2014 10:00:00 +0000" "" "" ""))) :=
  (c1_signing c4_client.creds HttpVerb.get "/b"
      "Thu, 01 May 2014 10:00:00 +0000" "" "" "").2.2 c4_client
    { verb := .get, path := "/b" }
    { now := "Thu, 01 May 2014 10:00:00 +0000" } rfl

end Ds3
